import Mathlib

/-!
Verification development for the sensor-telemetry ingestion server
(`src/main.go`, two near-duplicate Go files in one source).

The payload pipeline is embedded shallowly:
strings are lists of characters, `strings.Split` on a one-character
separator becomes `splitOnP`, the whitespace/NUL replacer becomes a
character filter, and the `strconv` conversions are modelled over exact
rationals.  The two HTTP handlers and the route mux are embedded as
functions from an abstract request value to a handler result that records
the response, the write calls made, and whether a write error was logged.
-/

namespace SensorServer

/-- Strings at the character level (Go strings are byte/rune sequences;
payloads here are ASCII, so a list of characters is faithful). -/
abbrev Str := List Char

/-! ### Sanitization

`strings.NewReplacer(" ", "", "\t", "", "\n", "", "\r", "", "\x00", "")`
with single-character patterns and empty replacements deletes every
occurrence of each listed character. -/

/-- Characters removed by the replacer in both handlers. -/
def isStripped (c : Char) : Bool :=
  c = ' ' || c = '\t' || c = '\n' || c = '\r' || c = Char.ofNat 0

/-- The replacer applied to the `data` field: drop every space, tab,
newline, carriage return and NUL character. -/
def sanitize (s : Str) : Str :=
  s.filter (fun c => !isStripped c)

/-! ### Go `strings.Split` with a one-character separator -/

/-- Model of Go `strings.Split` for a single-character separator given by
the predicate `p`: the empty string splits to `[""]`, and each separator
character starts a new segment. -/
def splitOnP (p : Char → Bool) : Str → List Str
  | [] => [[]]
  | c :: rest =>
    if p c then [] :: splitOnP p rest
    else (c :: (splitOnP p rest).headD []) :: (splitOnP p rest).tail

/-- Split on the pipe character, as in `strings.Split(data, "|")`. -/
def splitPipe (s : Str) : List Str := splitOnP (fun c => c = '|') s

/-- Split on the comma character, as in `strings.Split(bodyArr[3], ",")`. -/
def splitComma (s : Str) : List Str := splitOnP (fun c => c = ',') s

/-! ### Numeric conversions

Modelled from the spec and the Go standard library contract of
`strconv.ParseInt(s, 10, 64)` and `strconv.ParseFloat(s, 64)`, which are
external library calls (not code of this repository).  The float model
works over exact rationals and covers signed decimal literals with an
optional fraction and optional decimal exponent; hexadecimal floats,
`inf`/`nan` spellings, digit-separating underscores and IEEE-754 rounding
and overflow are outside the model.  Both Go functions return value `0`
together with a syntax error when the input is not a literal, and the
server discards the error, keeping the `0`. -/

/-- Value of a digit string, most significant digit first. -/
def digitsVal (s : Str) : Nat :=
  s.foldl (fun n c => 10 * n + (c.toNat - 48)) 0

/-- A nonempty all-digit string. -/
def isDigits (s : Str) : Bool :=
  !s.isEmpty && s.all Char.isDigit

/-- Strip one leading sign character; returns (isNegative, rest). -/
def stripSign : Str → Bool × Str
  | [] => (false, [])
  | c :: r =>
    if c = '-' then (true, r)
    else if c = '+' then (false, r)
    else (false, c :: r)

/-- Largest int64 value. -/
def int64Max : Int := 9223372036854775807

/-- Model of `strconv.ParseInt(s, 10, 64)` with the error discarded: `0`
on a syntax error, and the value clamped to the int64 range on a range
error (Go returns the clamped value together with `ErrRange`). -/
def goParseInt64 (s : Str) : Int :=
  let (neg, d) := stripSign s
  if isDigits d then
    let n : Int := digitsVal d
    if neg then max (-(int64Max + 1)) (-n) else min int64Max n
  else 0

/-- Syntactic validity for `strconv.ParseInt`: an optional sign followed
by a nonempty digit string. -/
def intSyntaxOk (s : Str) : Bool :=
  isDigits (stripSign s).2

/-- Validity for claim statements: syntactically a decimal integer and
within the int64 range, so `goParseInt64` returns its exact value. -/
def isValidInt64 (s : Str) : Bool :=
  let (neg, d) := stripSign s
  isDigits d && (if neg then digitsVal d ≤ 2 ^ 63 else digitsVal d ≤ 2 ^ 63 - 1)

/-- Exponent marker characters of a float literal. -/
def isExpChar (c : Char) : Bool := c = 'e' || c = 'E'

/-- Mantissa of a decimal float literal: digits, optionally with one dot,
at least one digit overall.  Returns its exact rational value. -/
def mantissaVal (s : Str) : Option ℚ :=
  match splitOnP (fun c => c = '.') s with
  | [a] => if isDigits a then some (digitsVal a) else none
  | [a, b] =>
    if (a.all Char.isDigit && b.all Char.isDigit) && !(a ++ b).isEmpty then
      some ((digitsVal a : ℚ) + (digitsVal b : ℚ) / (10 : ℚ) ^ b.length)
    else none
  | _ => none

/-- Exponent part of a decimal float literal: optional sign then a
nonempty digit string. -/
def exponentVal (s : Str) : Option ℤ :=
  let (neg, d) := stripSign s
  if isDigits d then some (if neg then -(digitsVal d : ℤ) else digitsVal d) else none

/-- Model of `strconv.ParseFloat(s, 64)` over exact rationals: `none`
when `s` is not a decimal float literal (Go then returns `0` with a
syntax error). -/
def goParseFloatQ (s : Str) : Option ℚ :=
  let (neg, u) := stripSign s
  let v? : Option ℚ :=
    match splitOnP isExpChar u with
    | [m] => mantissaVal m
    | [m, e] =>
      match mantissaVal m, exponentVal e with
      | some mv, some ev => some (mv * (10 : ℚ) ^ ev)
      | _, _ => none
    | _ => none
  v?.map (fun v => if neg then -v else v)

/-- The float conversion as the server uses it: the error is discarded,
so a non-literal yields `0`. -/
def goParseFloat (s : Str) : ℚ :=
  (goParseFloatQ s).getD 0

/-- Syntactic validity for the float conversion: `strconv.ParseFloat`
succeeds without a syntax error. -/
def isFloatLit (s : Str) : Bool :=
  (goParseFloatQ s).isSome

/-! ### The parser -/

/-- Result of a successful parse:
(timestamp, humidity, temperature, x, y, z). -/
abbrev Parsed := Int × ℚ × ℚ × ℚ × ℚ × ℚ

/-- The `parseData` function of the second file: split on `|`, index
segments 0–3, split segment 3 on `,`, index components 0–2, convert each
field discarding conversion errors.  An out-of-range index panics in Go;
the surrounding `defer`/`recover` converts the panic into the error
`"error parsing data"`, modelled as the `Except.error` branch. -/
def parseData (data : Str) : Except String Parsed :=
  let bodyArr := splitPipe data
  match bodyArr.get? 0, bodyArr.get? 1, bodyArr.get? 2, bodyArr.get? 3 with
  | some b0, some b1, some b2, some b3 =>
    let acc := splitComma b3
    match acc.get? 0, acc.get? 1, acc.get? 2 with
    | some a0, some a1, some a2 =>
      Except.ok (goParseInt64 b0, goParseFloat b1, goParseFloat b2,
        goParseFloat a0, goParseFloat a1, goParseFloat a2)
    | _, _, _ => Except.error "error parsing data"
  | _, _, _, _ => Except.error "error parsing data"

/-- The inline parsing sequence of the first file's `postSensorData`:
the same splits, indexings and conversions, but with no `recover`, so an
out-of-range index is an unhandled panic, modelled as `none`. -/
def inlineParse (data : Str) : Option Parsed :=
  let bodyArr := splitPipe data
  match bodyArr.get? 0, bodyArr.get? 1, bodyArr.get? 2, bodyArr.get? 3 with
  | some b0, some b1, some b2, some b3 =>
    let acc := splitComma b3
    match acc.get? 0, acc.get? 1, acc.get? 2 with
    | some a0, some a1, some a2 =>
      some (goParseInt64 b0, goParseFloat b1, goParseFloat b2,
        goParseFloat a0, goParseFloat a1, goParseFloat a2)
    | _, _, _ => none
  | _, _, _, _ => none

/-! ### Outbound records (InfluxDB points) -/

/-- An outbound record: measurement name, tags, numeric fields, and the
point time (`time.Unix(timestamp, 0)`, kept as the integer second). -/
structure Point where
  measurement : String
  tags : List (String × Str)
  fields : List (String × ℚ)
  time : Int
deriving DecidableEq, Repr

/-- The "air" record built on parse success. -/
def airPoint (node : Str) (hum temp : ℚ) (timestamp : Int) : Point :=
  { measurement := "air"
    tags := [("location", node)]
    fields := [("humidity", hum), ("temperature", temp)]
    time := timestamp }

/-- The "accelerometer" record built on parse success. -/
def accPoint (node : Str) (x y z : ℚ) (timestamp : Int) : Point :=
  { measurement := "accelerometer"
    tags := [("location", node)]
    fields := [("x", x), ("y", y), ("z", z)]
    time := timestamp }

/-! ### HTTP layer -/

/-- The multipart form of a request (`r.MultipartForm`): the value slices
for the two field names the handler reads. -/
structure MultipartData where
  dataVals : List Str
  nodeVals : List Str
deriving DecidableEq, Repr

/-- Abstract HTTP request as the handlers observe it: the URL path and
method, whether `r.ParseForm()` succeeds, whether `r.Body` is non-nil,
the standard-form values of `data` and `node` (`FormValue` yields the
empty string for an absent field), and the multipart form
(`none` models a nil `r.MultipartForm`, whose dereference panics). -/
structure Request where
  path : String
  method : String
  formOk : Bool
  hasBody : Bool
  formData : Str
  formNode : Str
  multipart : Option MultipartData
deriving DecidableEq, Repr

/-- Response-level outcome of a handler run. -/
inductive Outcome where
  /-- A response was written with this status code and body. -/
  | resp (status : Nat) (body : String)
  /-- The handler returned without writing anything
  (form-parse error path). -/
  | earlyReturn
  /-- An unhandled panic escaped the handler. -/
  | fault
deriving DecidableEq, Repr

/-- Full observable result of a handler run: the outcome, the write
calls made (each call is the list of points passed to `WritePoint`),
and whether a write error was logged. -/
structure HandlerResult where
  outcome : Outcome
  calls : List (List Point)
  writeErrLogged : Bool
deriving DecidableEq, Repr

/-- Body written by `http.Error(w, "404 not found.", 404)`
(`http.Error` appends a newline). -/
def notFoundBody : String := "404 not found.\n"

/-- Body written by `http.Error(w, "Method is not supported.", 404)`. -/
def methodBody : String := "Method is not supported.\n"

/-- Body of the 400 response of the second file's handler. -/
def badRequestBody : String := "400 - Bad request data"

/-- Body of the success response:
`json.Marshal(map[string]string{"status": "ok"})` always succeeds on this
fixed one-key map and yields this string. -/
def okBody : String := "\x7b\"status\":\"ok\"\x7d"

/-- The default node identifier. -/
def unknownNode : Str := ['u', 'n', 'k', 'n', 'o', 'w', 'n']

/-- The welcome handler (`getRoot`, identical in both files). -/
def getRoot (r : Request) : HandlerResult :=
  if r.path ≠ "/" then ⟨.resp 404 notFoundBody, [], false⟩
  else if r.method ≠ "GET" then ⟨.resp 404 methodBody, [], false⟩
  else ⟨.resp 200 "Welcome", [], false⟩

/-- How the second file's handler obtains `data` and `node`. -/
inductive Extracted where
  /-- Both field values obtained. -/
  | got (data node : Str)
  /-- `ParseForm` failed and the body is nil: log and return. -/
  | earlyRet
  /-- A panic: nil `MultipartForm` dereference or indexing an empty
  value slice. -/
  | fault
deriving DecidableEq, Repr

/-- The field-extraction block of the second file's handler: try
`r.ParseForm()`; on failure, return early when the body is nil, else
parse the multipart form and index `Value["data"][0]` and
`Value["node"][0]`, panicking when a slice is empty or the form nil. -/
def formExtract (r : Request) : Extracted :=
  if r.formOk then .got r.formData r.formNode
  else if !r.hasBody then .earlyRet
  else
    match r.multipart with
    | none => .fault
    | some mp =>
      match mp.dataVals with
      | [] => .fault
      | d :: _ =>
        match mp.nodeVals with
        | [] => .fault
        | n :: _ => .got d n

/-- Shared tail of both handlers once `data` and `node` are in hand:
default the node, sanitize the payload, parse, and on success build the
two points and call `WritePoint` once; a write failure is only logged. -/
def ingestTail (node : Str) (parsed : Except String Parsed)
    (writeFails : Bool) : HandlerResult :=
  let node := if node = [] then unknownNode else node
  match parsed with
  | .error _ => ⟨.resp 400 badRequestBody, [], false⟩
  | .ok (ts, hum, temp, x, y, z) =>
    ⟨.resp 200 okBody,
      [[airPoint node hum temp ts, accPoint node x y z ts]], writeFails⟩

/-- The second file's `postSensorData` handler.  `writeFails` abstracts
the result of the `WritePoint` call. -/
def postSensorData2 (r : Request) (writeFails : Bool) : HandlerResult :=
  if r.path ≠ "/api" then ⟨.resp 404 notFoundBody, [], false⟩
  else if r.method ≠ "POST" then ⟨.resp 404 methodBody, [], false⟩
  else
    match formExtract r with
    | .earlyRet => ⟨.earlyReturn, [], false⟩
    | .fault => ⟨.fault, [], false⟩
    | .got data node => ingestTail node (parseData (sanitize data)) writeFails

/-- The first file's `postSensorData` handler: standard form only (a
`ParseForm` error logs and returns), and the parse is inline with no
recovery, so a malformed structure panics; there is no 400 path. -/
def postSensorData1 (r : Request) (writeFails : Bool) : HandlerResult :=
  if r.path ≠ "/api" then ⟨.resp 404 notFoundBody, [], false⟩
  else if r.method ≠ "POST" then ⟨.resp 404 methodBody, [], false⟩
  else if !r.formOk then ⟨.earlyReturn, [], false⟩
  else
    let node := if r.formNode = [] then unknownNode else r.formNode
    match inlineParse (sanitize r.formData) with
    | none => ⟨.fault, [], false⟩
    | some (ts, hum, temp, x, y, z) =>
      ⟨.resp 200 okBody,
        [[airPoint node hum temp ts, accPoint node x y z ts]], writeFails⟩

/-- The route mux of the second file: the pattern `/api` matches exactly
that path, and the pattern `/` matches everything else. -/
def route (r : Request) (writeFails : Bool) : HandlerResult :=
  if r.path = "/api" then postSensorData2 r writeFails else getRoot r

/-! ### Lemmas about the split function -/

lemma splitOnP_ne_nil (p : Char → Bool) (s : Str) : splitOnP p s ≠ [] := by
  cases s with
  | nil => simp [splitOnP]
  | cons c rest =>
    simp only [splitOnP]
    split <;> simp

lemma splitOnP_eq_single {p : Char → Bool} {s : Str}
    (h : ∀ c ∈ s, p c = false) : splitOnP p s = [s] := by
  induction s with
  | nil => rfl
  | cons c rest ih =>
    have hc : p c = false := h c (by simp)
    have hr : splitOnP p rest = [rest] := ih (fun d hd => h d (by simp [hd]))
    simp [splitOnP, hc, hr]

lemma splitOnP_append {p : Char → Bool} {xs : Str} {c : Char}
    (h : ∀ a ∈ xs, p a = false) (hc : p c = true) (ys : Str) :
    splitOnP p (xs ++ c :: ys) = xs :: splitOnP p ys := by
  induction xs with
  | nil => simp [splitOnP, hc]
  | cons a rest ih =>
    have ha : p a = false := h a (by simp)
    have hr := ih (fun d hd => h d (by simp [hd]))
    simp [splitOnP, ha, hr]

lemma mem_splitOnP {p : Char → Bool} {s : Str} {c : Char} (hc : c ∈ s) :
    p c = true ∨ ∃ t ∈ splitOnP p s, c ∈ t := by
  induction s with
  | nil => cases hc
  | cons a rest ih =>
    rcases splitOnP_nonempty : splitOnP p rest with _ | ⟨h0, tl⟩
    · exact absurd splitOnP_nonempty (splitOnP_ne_nil p rest)
    · rcases List.mem_cons.1 hc with rfl | hmem
      · by_cases hp : p c
        · exact Or.inl hp
        · refine Or.inr ⟨c :: h0, ?_, by simp⟩
          simp [splitOnP, hp, splitOnP_nonempty]
      · rcases ih hmem with h | ⟨t, ht, hct⟩
        · exact Or.inl h
        · by_cases hp : p a
          · refine Or.inr ⟨t, ?_, hct⟩
            simp only [splitOnP, hp, if_pos]
            exact List.mem_cons_of_mem _ ht
          · rw [splitOnP_nonempty] at ht
            rcases List.mem_cons.1 ht with rfl | htl
            · refine Or.inr ⟨a :: t, ?_, List.mem_cons_of_mem _ hct⟩
              simp [splitOnP, hp, splitOnP_nonempty]
            · refine Or.inr ⟨t, ?_, hct⟩
              simp [splitOnP, hp, splitOnP_nonempty, htl]

/-! ### Character classes of numeric literals -/

lemma stripSign_mem {s : Str} {c : Char} (hc : c ∈ s) :
    c = '-' ∨ c = '+' ∨ c ∈ (stripSign s).2 := by
  cases s with
  | nil => cases hc
  | cons a r =>
    simp only [stripSign]
    split_ifs with h1 h2
    · rcases List.mem_cons.1 hc with rfl | hm
      · exact Or.inl h1
      · exact Or.inr (Or.inr hm)
    · rcases List.mem_cons.1 hc with rfl | hm
      · exact Or.inr (Or.inl h2)
      · exact Or.inr (Or.inr hm)
    · exact Or.inr (Or.inr hc)

lemma isDigits_mem {s : Str} (h : isDigits s = true) {c : Char} (hc : c ∈ s) :
    c.isDigit = true := by
  simp only [isDigits, Bool.and_eq_true, List.all_eq_true] at h
  exact h.2 c hc

lemma mantissaVal_mem {m : Str} {v : ℚ} (h : mantissaVal m = some v)
    {c : Char} (hc : c ∈ m) : c.isDigit = true ∨ c = '.' := by
  rcases hsp : splitOnP (fun x => x = '.') m with _ | ⟨a, _ | ⟨b, _ | _⟩⟩ <;>
      rw [mantissaVal, hsp] at h
  · cases h
  · rcases mem_splitOnP (p := fun x => x = '.') hc with hdot | ⟨t, ht, hct⟩
    · exact Or.inr (by simpa using hdot)
    · rw [hsp] at ht
      obtain rfl : t = a := by simpa using ht
      by_cases hd : isDigits t = true
      · exact Or.inl (isDigits_mem hd hct)
      · simp [hd] at h
  · rcases mem_splitOnP (p := fun x => x = '.') hc with hdot | ⟨t, ht, hct⟩
    · exact Or.inr (by simpa using hdot)
    · rw [hsp] at ht
      by_cases hab : (a.all Char.isDigit && b.all Char.isDigit) = true
      · simp only [Bool.and_eq_true, List.all_eq_true] at hab
        rcases List.mem_cons.1 ht with rfl | ht2
        · exact Or.inl (hab.1 c hct)
        · obtain rfl : t = b := by simpa using ht2
          exact Or.inl (hab.2 c hct)
      · simp [hab] at h
  · cases h

lemma exponentVal_mem {e : Str} {v : ℤ} (h : exponentVal e = some v)
    {c : Char} (hc : c ∈ e) : c.isDigit = true ∨ c = '-' ∨ c = '+' := by
  rcases stripSign_mem hc with h1 | h1 | h1
  · exact Or.inr (Or.inl h1)
  · exact Or.inr (Or.inr h1)
  · by_cases hd : isDigits (stripSign e).2 = true
    · exact Or.inl (isDigits_mem hd h1)
    · rw [exponentVal] at h
      simp [hd] at h

lemma goParseFloatQ_mem {s : Str} (h : (goParseFloatQ s).isSome = true)
    {c : Char} (hc : c ∈ s) :
    c.isDigit = true ∨ c = '-' ∨ c = '+' ∨ c = '.' ∨ c = 'e' ∨ c = 'E' := by
  rcases hss : stripSign s with ⟨neg, u⟩
  rw [goParseFloatQ, hss] at h
  simp only [Option.isSome_map] at h
  rcases stripSign_mem hc with h1 | h1 | h1
  · exact Or.inr (Or.inl h1)
  · exact Or.inr (Or.inr (Or.inl h1))
  · rw [hss] at h1
    rcases mem_splitOnP (p := isExpChar) h1 with hx | ⟨t, ht, hct⟩
    · rcases (by simpa [isExpChar] using hx : c = 'e' ∨ c = 'E') with he | he
      · exact Or.inr (Or.inr (Or.inr (Or.inr (Or.inl he))))
      · exact Or.inr (Or.inr (Or.inr (Or.inr (Or.inr he))))
    · rcases hsp : splitOnP isExpChar u with _ | ⟨m, _ | ⟨e, _ | _⟩⟩ <;>
          rw [hsp] at h ht
      · cases ht
      · obtain rfl : t = m := by simpa using ht
        rcases hm : mantissaVal t with _ | mv
        · simp [hm] at h
        · rcases mantissaVal_mem hm hct with hd | hd
          · exact Or.inl hd
          · exact Or.inr (Or.inr (Or.inr (Or.inl hd)))
      · rcases hm : mantissaVal m with _ | mv <;>
          rcases hex : exponentVal e with _ | ev
        · simp [hm, hex] at h
        · simp [hm, hex] at h
        · simp [hm, hex] at h
        · rcases List.mem_cons.1 ht with rfl | ht2
          · rcases mantissaVal_mem hm hct with hd | hd
            · exact Or.inl hd
            · exact Or.inr (Or.inr (Or.inr (Or.inl hd)))
          · obtain rfl : t = e := by simpa using ht2
            rcases exponentVal_mem hex hct with hd | hd | hd
            · exact Or.inl hd
            · exact Or.inr (Or.inl hd)
            · exact Or.inr (Or.inr (Or.inl hd))
      · simp at h

/-- A float literal contains neither the pipe nor the comma separator. -/
lemma isFloatLit_no_sep {s : Str} (h : isFloatLit s = true) :
    ('|' ∉ s) ∧ (',' ∉ s) := by
  constructor <;> intro hc <;>
    rcases goParseFloatQ_mem h hc with hd | hd | hd | hd | hd | hd <;>
      simp_all

/-! ### Structure of the parser -/

lemma getD_of_get? {α : Type} {l : List α} {n : Nat} {a d : α}
    (h : l.get? n = some a) : l.getD n d = a := by
  rw [List.getD_eq_getD_get?, h]
  rfl

/-- Complete case analysis of both parse paths: either the payload has at
least four pipe segments whose fourth has at least three comma components
and both parsers succeed with the same six values, or it does not and the
inline parse panics while `parseData` returns its typed error. -/
lemma parse_total (s : Str) :
    (∃ v, inlineParse s = some v ∧ parseData s = Except.ok v ∧
      4 ≤ (splitPipe s).length ∧
      3 ≤ (splitComma ((splitPipe s).getD 3 [])).length) ∨
    (inlineParse s = none ∧ parseData s = Except.error "error parsing data" ∧
      ((splitPipe s).length < 4 ∨
        (splitComma ((splitPipe s).getD 3 [])).length < 3)) := by
  rcases hsp : splitPipe s with _ | ⟨b0, _ | ⟨b1, _ | ⟨b2, _ | ⟨b3, rest⟩⟩⟩⟩
  · exact Or.inr ⟨by simp [inlineParse, hsp], by simp [parseData, hsp],
      Or.inl (by simp [hsp])⟩
  · exact Or.inr ⟨by simp [inlineParse, hsp], by simp [parseData, hsp],
      Or.inl (by simp [hsp])⟩
  · exact Or.inr ⟨by simp [inlineParse, hsp], by simp [parseData, hsp],
      Or.inl (by simp [hsp])⟩
  · exact Or.inr ⟨by simp [inlineParse, hsp], by simp [parseData, hsp],
      Or.inl (by simp [hsp])⟩
  · rcases hsc : splitComma b3 with _ | ⟨a0, _ | ⟨a1, _ | ⟨a2, acc⟩⟩⟩
    · exact absurd hsc (splitOnP_ne_nil _ _)
    · exact Or.inr ⟨by simp [inlineParse, hsp, hsc], by simp [parseData, hsp, hsc],
        Or.inr (by simp [hsp, hsc])⟩
    · exact Or.inr ⟨by simp [inlineParse, hsp, hsc], by simp [parseData, hsp, hsc],
        Or.inr (by simp [hsp, hsc])⟩
    · exact Or.inl ⟨(goParseInt64 b0, goParseFloat b1, goParseFloat b2,
          goParseFloat a0, goParseFloat a1, goParseFloat a2),
        by simp [inlineParse, hsp, hsc],
        by simp [parseData, hsp, hsc],
        by simp [hsp],
        by simp [hsp, hsc]⟩

/-- A decimal integer literal contains neither the pipe nor the comma
separator. -/
lemma isValidInt64_no_sep {s : Str} (h : isValidInt64 s = true) :
    ('|' ∉ s) ∧ (',' ∉ s) := by
  have hd : isDigits (stripSign s).2 = true := by
    rw [isValidInt64] at h
    rcases hsp : stripSign s with ⟨neg, d⟩
    rw [hsp] at h
    simp only [Bool.and_eq_true] at h
    simp [hsp, h.1]
  constructor <;> intro hc <;>
    rcases stripSign_mem hc with h1 | h1 | h1 <;>
      first
        | simp_all
        | exact absurd (isDigits_mem hd h1) (by simp)

/-! ### Further helper lemmas -/

lemma splitOnP_four {p : Char → Bool} {s1 s2 s3 t : Str} {c : Char}
    (hc : p c = true)
    (h1 : ∀ a ∈ s1, p a = false) (h2 : ∀ a ∈ s2, p a = false)
    (h3 : ∀ a ∈ s3, p a = false) (ht : ∀ a ∈ t, p a = false) :
    splitOnP p (s1 ++ c :: (s2 ++ c :: (s3 ++ c :: t))) = [s1, s2, s3, t] := by
  rw [splitOnP_append h1 hc, splitOnP_append h2 hc, splitOnP_append h3 hc,
    splitOnP_eq_single ht]

lemma splitOnP_three {p : Char → Bool} {s1 s2 s3 : Str} {c : Char}
    (hc : p c = true)
    (h1 : ∀ a ∈ s1, p a = false) (h2 : ∀ a ∈ s2, p a = false)
    (h3 : ∀ a ∈ s3, p a = false) :
    splitOnP p (s1 ++ c :: (s2 ++ c :: s3)) = [s1, s2, s3] := by
  rw [splitOnP_append h1 hc, splitOnP_append h2 hc, splitOnP_eq_single h3]

lemma not_mem_decide {s : Str} {ch : Char} (h : ch ∉ s) :
    ∀ a ∈ s, decide (a = ch) = false := by
  intro a ha
  simp only [decide_eq_false_iff_not]
  exact fun e => h (e ▸ ha)

lemma goParseInt64_syntax_err {s : Str} (h : intSyntaxOk s = false) :
    goParseInt64 s = 0 := by
  rcases hss : stripSign s with ⟨neg, d⟩
  rw [intSyntaxOk, hss] at h
  simp only [] at h
  simp [goParseInt64, hss, h]

lemma goParseFloat_syntax_err {s : Str} (h : isFloatLit s = false) :
    goParseFloat s = 0 := by
  rcases ho : goParseFloatQ s with _ | v
  · simp [goParseFloat, ho]
  · rw [isFloatLit, ho] at h
    simp at h

/-! ## The claims -/

/-- C1, counterexample: on the payload `"garbage"` (fewer than 4 pipe
segments) the first file's inline parsing step yields no parse result and
the unhandled fault escapes the handler, instead of a typed parse
failure; so the claim does not hold of the first file's handler. -/
theorem inline_parse_panics_cex :
    inlineParse (sanitize "garbage".toList) = none ∧
    postSensorData1 ⟨"/api", "POST", true, true, "garbage".toList, [], none⟩ false =
      ⟨.fault, [], false⟩ := by
  constructor
  · rfl
  · rfl

/-- C1, amended: for every input splitting on the pipe into fewer than 4
segments, or whose 4th segment splits on the comma into fewer than 3
components, `parseData` (second file) returns the typed parse failure;
the first file's inline parsing instead produces no value — the
out-of-bounds panic propagates unhandled out of the parsing step. -/
theorem malformed_payload_rejected (s : Str)
    (h : (splitPipe s).length < 4 ∨
      (splitComma ((splitPipe s).getD 3 [])).length < 3) :
    parseData s = Except.error "error parsing data" ∧ inlineParse s = none := by
  rcases parse_total s with ⟨v, hi, hp, h4, h3⟩ | ⟨hi, hp, -⟩
  · omega
  · exact ⟨hp, hi⟩

theorem malformed_payload_rejected_witness :
    ((splitPipe "garbage".toList).length < 4 ∨
      (splitComma ((splitPipe "garbage".toList).getD 3 [])).length < 3) ∧
    (parseData "garbage".toList = Except.error "error parsing data" ∧
      inlineParse "garbage".toList = none) :=
  ⟨by decide, malformed_payload_rejected _ (by decide)⟩

/-- C2: a well-formed payload `"<ts>|<h>|<t>|<x>,<y>,<z>"` whose
timestamp field is a valid decimal int64 literal and whose five other
fields are valid float literals parses with no error into exactly the
six converted values. -/
theorem parseData_roundtrip (s1 s2 s3 s4 s5 s6 : Str)
    (h1 : isValidInt64 s1 = true) (h2 : isFloatLit s2 = true)
    (h3 : isFloatLit s3 = true) (h4 : isFloatLit s4 = true)
    (h5 : isFloatLit s5 = true) (h6 : isFloatLit s6 = true) :
    parseData (s1 ++ '|' :: (s2 ++ '|' :: (s3 ++ '|' ::
        (s4 ++ ',' :: (s5 ++ ',' :: s6))))) =
      Except.ok (goParseInt64 s1, goParseFloat s2, goParseFloat s3,
        goParseFloat s4, goParseFloat s5, goParseFloat s6) := by
  obtain ⟨p1, c1⟩ := isValidInt64_no_sep h1
  obtain ⟨p2, c2⟩ := isFloatLit_no_sep h2
  obtain ⟨p3, c3⟩ := isFloatLit_no_sep h3
  obtain ⟨p4, c4⟩ := isFloatLit_no_sep h4
  obtain ⟨p5, c5⟩ := isFloatLit_no_sep h5
  obtain ⟨p6, c6⟩ := isFloatLit_no_sep h6
  have ht : ('|' : Char) ∉ s4 ++ ',' :: (s5 ++ ',' :: s6) := by
    intro hmem
    rcases List.mem_append.1 hmem with hm | hm
    · exact p4 hm
    · rcases List.mem_cons.1 hm with e | hm2
      · exact absurd e (by decide)
      · rcases List.mem_append.1 hm2 with hm3 | hm3
        · exact p5 hm3
        · rcases List.mem_cons.1 hm3 with e | hm4
          · exact absurd e (by decide)
          · exact p6 hm4
  have hp : splitPipe (s1 ++ '|' :: (s2 ++ '|' :: (s3 ++ '|' ::
      (s4 ++ ',' :: (s5 ++ ',' :: s6))))) =
      [s1, s2, s3, s4 ++ ',' :: (s5 ++ ',' :: s6)] :=
    splitOnP_four (by decide) (not_mem_decide p1) (not_mem_decide p2)
      (not_mem_decide p3) (not_mem_decide ht)
  have hcsplit : splitComma (s4 ++ ',' :: (s5 ++ ',' :: s6)) = [s4, s5, s6] :=
    splitOnP_three (by decide) (not_mem_decide c4) (not_mem_decide c5)
      (not_mem_decide c6)
  simp [parseData, splitPipe] at hp ⊢
  simp [hp, splitComma] at hcsplit ⊢
  simp [hcsplit]

theorem parseData_roundtrip_witness :
    (isValidInt64 "1700000000".toList = true ∧ isFloatLit "55.2".toList = true ∧
      isFloatLit "21.4".toList = true ∧ isFloatLit "0.01".toList = true ∧
      isFloatLit "0.02".toList = true ∧ isFloatLit "9.81".toList = true) ∧
    parseData ("1700000000".toList ++ '|' :: ("55.2".toList ++ '|' ::
        ("21.4".toList ++ '|' :: ("0.01".toList ++ ',' ::
          ("0.02".toList ++ ',' :: "9.81".toList))))) =
      Except.ok (goParseInt64 "1700000000".toList, goParseFloat "55.2".toList,
        goParseFloat "21.4".toList, goParseFloat "0.01".toList,
        goParseFloat "0.02".toList, goParseFloat "9.81".toList) :=
  ⟨⟨by decide, by decide, by decide, by decide, by decide, by decide⟩,
    parseData_roundtrip _ _ _ _ _ _ (by decide) (by decide) (by decide)
      (by decide) (by decide) (by decide)⟩

/-- C3: when the payload has the required structure (4 pipe segments,
3 comma components in the 4th), `parseData` succeeds even if individual
fields are not numeric literals; each field is the output of its own
conversion, a conversion applied to a non-literal yields zero, and the
other fields are unaffected (each depends only on its own segment). -/
theorem field_conversion_error_zero (s : Str) (b0 b1 b2 b3 a0 a1 a2 : Str)
    (hb0 : (splitPipe s)[0]? = some b0)
    (hb1 : (splitPipe s)[1]? = some b1)
    (hb2 : (splitPipe s)[2]? = some b2)
    (hb3 : (splitPipe s)[3]? = some b3)
    (ha0 : (splitComma b3)[0]? = some a0)
    (ha1 : (splitComma b3)[1]? = some a1)
    (ha2 : (splitComma b3)[2]? = some a2) :
    parseData s = Except.ok (goParseInt64 b0, goParseFloat b1, goParseFloat b2,
        goParseFloat a0, goParseFloat a1, goParseFloat a2) ∧
    (intSyntaxOk b0 = false → goParseInt64 b0 = 0) ∧
    (isFloatLit b1 = false → goParseFloat b1 = 0) ∧
    (isFloatLit b2 = false → goParseFloat b2 = 0) ∧
    (isFloatLit a0 = false → goParseFloat a0 = 0) ∧
    (isFloatLit a1 = false → goParseFloat a1 = 0) ∧
    (isFloatLit a2 = false → goParseFloat a2 = 0) :=
  ⟨by simp [parseData, hb0, hb1, hb2, hb3, ha0, ha1, ha2],
    fun h => goParseInt64_syntax_err h, fun h => goParseFloat_syntax_err h,
    fun h => goParseFloat_syntax_err h, fun h => goParseFloat_syntax_err h,
    fun h => goParseFloat_syntax_err h, fun h => goParseFloat_syntax_err h⟩

theorem field_conversion_error_zero_witness :
    ((splitPipe "12|abc|3.5|x,2,3".toList)[0]? = some "12".toList ∧
      (splitPipe "12|abc|3.5|x,2,3".toList)[1]? = some "abc".toList ∧
      (splitPipe "12|abc|3.5|x,2,3".toList)[2]? = some "3.5".toList ∧
      (splitPipe "12|abc|3.5|x,2,3".toList)[3]? = some "x,2,3".toList ∧
      (splitComma "x,2,3".toList)[0]? = some "x".toList ∧
      (splitComma "x,2,3".toList)[1]? = some "2".toList ∧
      (splitComma "x,2,3".toList)[2]? = some "3".toList) ∧
    (parseData "12|abc|3.5|x,2,3".toList =
        Except.ok (goParseInt64 "12".toList, goParseFloat "abc".toList,
          goParseFloat "3.5".toList, goParseFloat "x".toList,
          goParseFloat "2".toList, goParseFloat "3".toList) ∧
      (intSyntaxOk "12".toList = false → goParseInt64 "12".toList = 0) ∧
      (isFloatLit "abc".toList = false → goParseFloat "abc".toList = 0) ∧
      (isFloatLit "3.5".toList = false → goParseFloat "3.5".toList = 0) ∧
      (isFloatLit "x".toList = false → goParseFloat "x".toList = 0) ∧
      (isFloatLit "2".toList = false → goParseFloat "2".toList = 0) ∧
      (isFloatLit "3".toList = false → goParseFloat "3".toList = 0)) :=
  ⟨⟨by decide, by decide, by decide, by decide, by decide, by decide, by decide⟩,
    field_conversion_error_zero "12|abc|3.5|x,2,3".toList "12".toList
      "abc".toList "3.5".toList "x,2,3".toList "x".toList "2".toList
      "3".toList (by decide) (by decide) (by decide) (by decide) (by decide)
      (by decide) (by decide)⟩

/-- C9: the sanitization step (dropping every space, tab, newline,
carriage return and NUL) is idempotent. -/
theorem sanitize_idempotent (s : Str) : sanitize (sanitize s) = sanitize s := by
  simp [sanitize, List.filter_filter]

/-- C10: on every input with at least 4 pipe segments whose 4th segment
has at least 3 comma components, the first file's inline parsing sequence
and the second file's `parseData` compute exactly the same six values. -/
theorem inline_refines_parseData (s : Str)
    (h4 : 4 ≤ (splitPipe s).length)
    (h3 : 3 ≤ (splitComma ((splitPipe s).getD 3 [])).length) :
    ∃ v, inlineParse s = some v ∧ parseData s = Except.ok v := by
  rcases parse_total s with ⟨v, hi, hp, -, -⟩ | ⟨-, -, hbad⟩
  · exact ⟨v, hi, hp⟩
  · omega

theorem inline_refines_parseData_witness :
    (4 ≤ (splitPipe "1|2|3|4,5,6".toList).length ∧
      3 ≤ (splitComma ((splitPipe "1|2|3|4,5,6".toList).getD 3 [])).length) ∧
    ∃ v, inlineParse "1|2|3|4,5,6".toList = some v ∧
      parseData "1|2|3|4,5,6".toList = Except.ok v :=
  ⟨⟨by decide, by decide⟩, inline_refines_parseData _ (by decide) (by decide)⟩

/-- C4: a `POST /api` request whose extracted payload fails parsing gets
status 400 with the non-empty plain-text body, and no write call is
made. -/
theorem bad_payload_400 (r : Request) (wf : Bool) (data node : Str)
    (hpath : r.path = "/api") (hmethod : r.method = "POST")
    (hx : formExtract r = .got data node)
    (hbad : (parseData (sanitize data)).isOk = false) :
    postSensorData2 r wf = ⟨.resp 400 badRequestBody, [], false⟩ ∧
    badRequestBody ≠ "" := by
  refine ⟨?_, by decide⟩
  rcases hp : parseData (sanitize data) with e | v
  · simp [postSensorData2, hpath, hmethod, hx, ingestTail, hp]
  · rw [hp] at hbad
    simp [Except.isOk, Except.toBool] at hbad

theorem bad_payload_400_witness :
    (formExtract ⟨"/api", "POST", true, true, "garbage".toList, [], none⟩ =
        .got "garbage".toList [] ∧
      (parseData (sanitize "garbage".toList)).isOk = false) ∧
    (postSensorData2 ⟨"/api", "POST", true, true, "garbage".toList, [], none⟩ false =
        ⟨.resp 400 badRequestBody, [], false⟩ ∧
      badRequestBody ≠ "") :=
  ⟨⟨by decide, by decide⟩,
    bad_payload_400 ⟨"/api", "POST", true, true, "garbage".toList, [], none⟩
      false "garbage".toList [] rfl rfl (by decide) (by decide)⟩

/-- C5, counterexample: a multipart ingestion request with a valid
payload but no `node` field does not produce records tagged `"unknown"`;
indexing the absent value slice panics, so the handler faults and no
record is constructed. -/
theorem multipart_missing_node_cex :
    postSensorData2 ⟨"/api", "POST", false, true, [], [],
        some ⟨["1|2|3|4,5,6".toList], []⟩⟩ false = ⟨.fault, [], false⟩ ∧
    (postSensorData2 ⟨"/api", "POST", false, true, [], [],
        some ⟨["1|2|3|4,5,6".toList], []⟩⟩ false).calls = [] := by
  constructor
  · rfl
  · rfl

/-- C5, amended: with standard form encoding a blank or absent `node`
yields records tagged `"unknown"`, and with multipart encoding a present
but blank `node` does too (an absent multipart `node` slice instead
faults); standard form parsing is attempted first — when it succeeds the
multipart form is never consulted — and when it fails with no body
present the handler returns early without touching the multipart form. -/
theorem node_default_and_fallback :
    (∀ r wf, r.path = "/api" → r.method = "POST" → r.formOk = true →
      r.formNode = [] → (parseData (sanitize r.formData)).isOk = true →
      ∃ ts hum temp x y z, postSensorData2 r wf =
        ⟨.resp 200 okBody,
          [[airPoint unknownNode hum temp ts, accPoint unknownNode x y z ts]],
          wf⟩) ∧
    (∀ r wf mp ds ns d, r.path = "/api" → r.method = "POST" →
      r.formOk = false → r.hasBody = true → r.multipart = some mp →
      mp.dataVals = d :: ds → mp.nodeVals = [] :: ns →
      (parseData (sanitize d)).isOk = true →
      ∃ ts hum temp x y z, postSensorData2 r wf =
        ⟨.resp 200 okBody,
          [[airPoint unknownNode hum temp ts, accPoint unknownNode x y z ts]],
          wf⟩) ∧
    (∀ r wf mp, r.formOk = true →
      postSensorData2 { r with multipart := mp } wf = postSensorData2 r wf) ∧
    (∀ r wf, r.path = "/api" → r.method = "POST" → r.formOk = false →
      r.hasBody = false → postSensorData2 r wf = ⟨.earlyReturn, [], false⟩) := by
  refine ⟨?_, ?_, ?_, ?_⟩
  · intro r wf h1 h2 h3 h4 hok
    rcases hp : parseData (sanitize r.formData) with e | v
    · rw [hp] at hok
      simp [Except.isOk, Except.toBool] at hok
    · obtain ⟨ts, hum, temp, x, y, z⟩ := v
      exact ⟨ts, hum, temp, x, y, z,
        by simp [postSensorData2, formExtract, h1, h2, h3, h4, ingestTail, hp]⟩
  · intro r wf mp ds ns d h1 h2 h3 h4 h5 h6 h7 hok
    rcases hp : parseData (sanitize d) with e | v
    · rw [hp] at hok
      simp [Except.isOk, Except.toBool] at hok
    · obtain ⟨ts, hum, temp, x, y, z⟩ := v
      exact ⟨ts, hum, temp, x, y, z,
        by simp [postSensorData2, formExtract, h1, h2, h3, h4, h5, h6, h7,
          ingestTail, hp]⟩
  · intro r wf mp h
    simp [postSensorData2, formExtract, h]
  · intro r wf h1 h2 h3 h4
    simp [postSensorData2, formExtract, h1, h2, h3, h4]

theorem node_default_and_fallback_witness :
    ((⟨"/api", "POST", true, true, "1|2|3|4,5,6".toList, [], none⟩ : Request).formOk
        = true ∧
      (parseData (sanitize "1|2|3|4,5,6".toList)).isOk = true) ∧
    (∃ ts hum temp x y z,
      postSensorData2 ⟨"/api", "POST", true, true, "1|2|3|4,5,6".toList, [], none⟩
          false =
        ⟨.resp 200 okBody,
          [[airPoint unknownNode hum temp ts, accPoint unknownNode x y z ts]],
          false⟩) :=
  ⟨⟨rfl, by decide⟩,
    node_default_and_fallback.1
      ⟨"/api", "POST", true, true, "1|2|3|4,5,6".toList, [], none⟩
      false rfl rfl rfl rfl (by decide)⟩

/-- C6: when a `POST /api` request parses successfully, a failing write
call changes nothing about the HTTP response — still 200 with the fixed
JSON body and the same write calls — the failure is only logged. -/
theorem write_failure_ignored (r : Request) (data node : Str)
    (hpath : r.path = "/api") (hmethod : r.method = "POST")
    (hx : formExtract r = .got data node)
    (hok : (parseData (sanitize data)).isOk = true) :
    (postSensorData2 r true).outcome = .resp 200 okBody ∧
    (postSensorData2 r false).outcome = .resp 200 okBody ∧
    (postSensorData2 r true).calls = (postSensorData2 r false).calls ∧
    (postSensorData2 r true).writeErrLogged = true := by
  rcases hp : parseData (sanitize data) with e | v
  · rw [hp] at hok
    simp [Except.isOk, Except.toBool] at hok
  · obtain ⟨ts, hum, temp, x, y, z⟩ := v
    refine ⟨?_, ?_, ?_, ?_⟩ <;>
      simp [postSensorData2, hpath, hmethod, hx, ingestTail, hp]

theorem write_failure_ignored_witness :
    (formExtract ⟨"/api", "POST", true, true, "1|2|3|4,5,6".toList, [], none⟩ =
        .got "1|2|3|4,5,6".toList [] ∧
      (parseData (sanitize "1|2|3|4,5,6".toList)).isOk = true) ∧
    ((postSensorData2 ⟨"/api", "POST", true, true, "1|2|3|4,5,6".toList, [], none⟩
        true).outcome = .resp 200 okBody ∧
      (postSensorData2 ⟨"/api", "POST", true, true, "1|2|3|4,5,6".toList, [], none⟩
        false).outcome = .resp 200 okBody ∧
      (postSensorData2 ⟨"/api", "POST", true, true, "1|2|3|4,5,6".toList, [], none⟩
        true).calls =
        (postSensorData2 ⟨"/api", "POST", true, true, "1|2|3|4,5,6".toList, [], none⟩
          false).calls ∧
      (postSensorData2 ⟨"/api", "POST", true, true, "1|2|3|4,5,6".toList, [], none⟩
        true).writeErrLogged = true) :=
  ⟨⟨by decide, by decide⟩,
    write_failure_ignored
      ⟨"/api", "POST", true, true, "1|2|3|4,5,6".toList, [], none⟩
      "1|2|3|4,5,6".toList [] rfl rfl (by decide) (by decide)⟩

/-- C7: every run of the ingestion handler produces either no outbound
record or exactly one write call carrying exactly two records; moreover,
for a submission that reaches the parse, a parse failure constructs zero
records, and a parse success constructs exactly the "air" record
(humidity, temperature, timestamp) and the "accelerometer" record
(x, y, z, timestamp), both tagged with the submission's node (defaulted
to `"unknown"` when blank), passed together in a single write call. -/
theorem zero_or_two_records (r : Request) (wf : Bool) :
    ((postSensorData2 r wf).calls = [] ∨
      ∃ node ts hum temp x y z, (postSensorData2 r wf).calls =
        [[airPoint node hum temp ts, accPoint node x y z ts]]) ∧
    (∀ data node, r.path = "/api" → r.method = "POST" →
      formExtract r = .got data node →
      (∀ e, parseData (sanitize data) = Except.error e →
        (postSensorData2 r wf).calls = []) ∧
      (∀ ts hum temp x y z,
        parseData (sanitize data) = Except.ok (ts, hum, temp, x, y, z) →
        (postSensorData2 r wf).calls =
          [[airPoint (if node = [] then unknownNode else node) hum temp ts,
            accPoint (if node = [] then unknownNode else node) x y z ts]])) := by
  constructor
  · by_cases h1 : r.path = "/api"
    · by_cases h2 : r.method = "POST"
      · rcases hx : formExtract r with ⟨d, n⟩ | _ | _
        · rcases hp : parseData (sanitize d) with e | v
          · left
            simp [postSensorData2, h1, h2, hx, ingestTail, hp]
          · obtain ⟨ts, hum, temp, x, y, z⟩ := v
            right
            refine ⟨if n = [] then unknownNode else n, ts, hum, temp, x, y, z, ?_⟩
            simp [postSensorData2, h1, h2, hx, ingestTail, hp]
        · left
          simp [postSensorData2, h1, h2, hx]
        · left
          simp [postSensorData2, h1, h2, hx]
      · left
        simp [postSensorData2, h1, h2]
    · left
      simp [postSensorData2, h1]
  · intro data node h1 h2 hx
    constructor
    · intro e he
      simp [postSensorData2, h1, h2, hx, ingestTail, he]
    · intro ts hum temp x y z hok
      simp [postSensorData2, h1, h2, hx, ingestTail, hok]

theorem zero_or_two_records_witness :
    (formExtract ⟨"/api", "POST", true, true, "1|2|3|4,5,6".toList, [], none⟩ =
        .got "1|2|3|4,5,6".toList [] ∧
      parseData (sanitize "1|2|3|4,5,6".toList) =
        Except.ok (goParseInt64 "1".toList, goParseFloat "2".toList,
          goParseFloat "3".toList, goParseFloat "4".toList,
          goParseFloat "5".toList, goParseFloat "6".toList) ∧
      formExtract ⟨"/api", "POST", true, true, "garbage".toList, [], none⟩ =
        .got "garbage".toList [] ∧
      parseData (sanitize "garbage".toList) = Except.error "error parsing data") ∧
    (postSensorData2 ⟨"/api", "POST", true, true, "1|2|3|4,5,6".toList, [], none⟩
        false).calls =
      [[airPoint unknownNode (goParseFloat "2".toList) (goParseFloat "3".toList)
          (goParseInt64 "1".toList),
        accPoint unknownNode (goParseFloat "4".toList) (goParseFloat "5".toList)
          (goParseFloat "6".toList) (goParseInt64 "1".toList)]] ∧
    (postSensorData2 ⟨"/api", "POST", true, true, "garbage".toList, [], none⟩
        false).calls = [] := by
  refine ⟨⟨by decide, by rfl, by decide, by rfl⟩, ?_, ?_⟩
  · simpa using
      ((zero_or_two_records
            ⟨"/api", "POST", true, true, "1|2|3|4,5,6".toList, [], none⟩
            false).2
          "1|2|3|4,5,6".toList [] rfl rfl (by decide)).2
        (goParseInt64 "1".toList) (goParseFloat "2".toList)
        (goParseFloat "3".toList) (goParseFloat "4".toList)
        (goParseFloat "5".toList) (goParseFloat "6".toList) (by rfl)
  · exact ((zero_or_two_records
            ⟨"/api", "POST", true, true, "garbage".toList, [], none⟩
            false).2
          "garbage".toList [] rfl rfl (by decide)).1
        "error parsing data" (by rfl)

/-- C8: routing — `GET /` answers 200 `Welcome`; any other path reaching
the welcome handler answers 404; a non-GET method on `/` answers 404;
`GET /api` answers 404; a `POST /api` whose body extracts and parses
answers 200 with the JSON body. -/
theorem routing_behavior :
    (∀ r wf, r.path = "/" → r.method = "GET" →
      route r wf = ⟨.resp 200 "Welcome", [], false⟩) ∧
    (∀ r, r.path ≠ "/" → getRoot r = ⟨.resp 404 notFoundBody, [], false⟩) ∧
    (∀ r wf, r.path = "/" → r.method ≠ "GET" →
      route r wf = ⟨.resp 404 methodBody, [], false⟩) ∧
    (∀ r wf, r.path = "/api" → r.method = "GET" →
      route r wf = ⟨.resp 404 methodBody, [], false⟩) ∧
    (∀ r wf data node, r.path = "/api" → r.method = "POST" →
      formExtract r = .got data node →
      (parseData (sanitize data)).isOk = true →
      (route r wf).outcome = .resp 200 okBody) := by
  refine ⟨?_, ?_, ?_, ?_, ?_⟩
  · intro r wf h1 h2
    simp [route, getRoot, h1, h2]
  · intro r h
    simp [getRoot, h]
  · intro r wf h1 h2
    simp [route, getRoot, h1, h2]
  · intro r wf h1 h2
    simp [route, postSensorData2, h1, h2]
  · intro r wf data node h1 h2 hx hok
    rcases hp : parseData (sanitize data) with e | v
    · rw [hp] at hok
      simp [Except.isOk, Except.toBool] at hok
    · obtain ⟨ts, hum, temp, x, y, z⟩ := v
      simp [route, postSensorData2, h1, h2, hx, ingestTail, hp]

theorem routing_behavior_witness :
    (route ⟨"/", "GET", true, false, [], [], none⟩ false =
        ⟨.resp 200 "Welcome", [], false⟩) ∧
    (getRoot ⟨"/nosuch", "GET", true, false, [], [], none⟩ =
        ⟨.resp 404 notFoundBody, [], false⟩) ∧
    (route ⟨"/", "POST", true, false, [], [], none⟩ false =
        ⟨.resp 404 methodBody, [], false⟩) ∧
    (route ⟨"/api", "GET", true, false, [], [], none⟩ false =
        ⟨.resp 404 methodBody, [], false⟩) ∧
    ((route ⟨"/api", "POST", true, true, "1|2|3|4,5,6".toList, [], none⟩
        false).outcome = .resp 200 okBody) :=
  ⟨routing_behavior.1 _ false rfl rfl,
    routing_behavior.2.1 _ (by decide),
    routing_behavior.2.2.1 _ false rfl (by decide),
    routing_behavior.2.2.2.1 _ false rfl rfl,
    routing_behavior.2.2.2.2 _ false "1|2|3|4,5,6".toList [] rfl rfl
      (by decide) (by decide)⟩

end SensorServer
